import Mathlib

/-! Delivery tracker: the simulation core of `src/App.js`.

A shallow embedding of the algorithmic part of the `App` component
(`calculateDistance`, `estimateArrivalTime`, `updateDeliveryState`,
`simulateMovement` and its interval callback, `generatePath`) together with
the properties the design document states about it.

Numbers are JavaScript numbers read in exact arithmetic: a finite number is an
element of an ordered field (`ℚ` for evaluation, `ℝ` where the trigonometric
functions are involved) and `none : Option _` stands for `NaN` in the places
where the source can produce it (`0 / 0` in `generatePath`). Definitions that
do not touch `Math.sin`, `Math.cos`, `Math.sqrt` or `Math.atan2` are generic in
the field and computable; those built on `calculateDistance` live over `ℝ`.
-/

namespace DeliveryTracker

/-! ## Data model -/

/-- Values taken by the `deliveryState` React state (line 38). The design
document calls `null` PENDING and `'NEAR TO'` NEAR. -/
inductive DeliveryState
  | null
  | STARTED
  | NEAR_TO
  | ARRIVED
  deriving DecidableEq, Repr

/-- The JavaScript value behind each `DeliveryState`. -/
def DeliveryState.toJs : DeliveryState → Option String
  | .null => none
  | .STARTED => some "STARTED"
  | .NEAR_TO => some "NEAR TO"
  | .ARRIVED => some "ARRIVED"

/-- A geocoded coordinate object: the `lat` and `lng` fields (line 73). -/
structure LatLng (α : Type) where
  lat : α
  lng : α

/-- A waypoint array `[lat, lng]` as pushed by `generatePath` (line 181); a
coordinate is `none` when it is `NaN`. -/
abbrev Waypoint (α : Type) := Option α × Option α

/-- The value of a `type="time"` input with a five minute step: the string
`HH:MM`. -/
structure TimeOfDay where
  hh : Fin 24
  mm : Fin 60
  deriving DecidableEq, Repr

section Generic

variable {α : Type} [LinearOrderedField α]

/-! ## JavaScript number primitives -/

/-- The comparison `x <= c` for a possibly `NaN` left operand: any comparison
with `NaN` is false. -/
def jsLe (x : Option α) (c : α) : Bool :=
  match x with
  | some v => decide (v ≤ c)
  | none => false

/-- The product `x * c` for a possibly `NaN` left operand. -/
def jsMul (x : Option α) (c : α) : Option α :=
  x.map (fun v => v * c)

/-- The method call `x.toFixed(0)`: the nearest integer, the larger one on a
tie, printed in decimal after the sign of `x`; `NaN` prints as `NaN`. (The
exponential form used from `1e21` on is out of reach of the one caller, whose
argument is at most `3000`.) -/
def toFixed0 [FloorRing α] (x : Option α) : String :=
  match x with
  | none => "NaN"
  | some v => if v < 0 then "-" ++ toString ⌊-v + 1 / 2⌋₊ else toString ⌊v + 1 / 2⌋₊

/-! ## `generatePath` (lines 176-184) -/

/-- The `for` loop of `generatePath`, entered with loop variable `i` and the
array `path` built so far. The quotient `i / steps` is taken while
`i <= steps` holds, so a zero divisor meets the dividend `0` only, and
`0 / 0` is `NaN`, which the sum and product propagate. -/
def generatePath.loop (startLat startLng endLat endLng : α) (steps : ℕ) (i : ℕ)
    (path : List (Waypoint α)) : List (Waypoint α) :=
  if i ≤ steps then
    let q : Option α := if steps = 0 then none else some ((i : α) / (steps : α))
    let lat := q.map (fun t => startLat + (endLat - startLat) * t)
    let lng := q.map (fun t => startLng + (endLng - startLng) * t)
    generatePath.loop startLat startLng endLat endLng steps (i + 1) (path ++ [(lat, lng)])
  else path
termination_by steps + 1 - i

/-- The function `generatePath(startLat, startLng, endLat, endLng, steps)`. -/
def generatePath (startLat startLng endLat endLng : α) (steps : ℕ) : List (Waypoint α) :=
  generatePath.loop startLat startLng endLat endLng steps 0 []

/-! ## `updateDeliveryState`, the branch on the distance (lines 113-122) -/

/-- Lines 113-122 of `updateDeliveryState` for a given value of `distance`.
`deliveryState` is the value the function body reads for the test
`deliveryState !== 'STARTED'`; `ui` is the pair of React states
`(deliveryState, stateMessage)` that the two setters overwrite. When no branch
is taken no setter is called and `ui` is returned as it is. -/
def updateDeliveryStateAt [FloorRing α] (deliveryState : DeliveryState)
    (ui : DeliveryState × String)
    (distance : Option α) : DeliveryState × String :=
  if jsLe distance (1 / 10) then
    (DeliveryState.ARRIVED, "We have reached your destination!")
  else if jsLe distance 3 then
    (DeliveryState.NEAR_TO,
      "We're " ++ toFixed0 (jsMul distance 1000) ++ " m away from your destination.")
  else if deliveryState ≠ DeliveryState.STARTED then
    (DeliveryState.STARTED, "We're delivering...")
  else ui

/-- The transition table of the design document (section 4.4), row by row:
the new state and the new message, `none` where the table has no new
message. -/
def specTransition [FloorRing α] (currentState : DeliveryState) (distance : α) :
    DeliveryState × Option String :=
  if distance ≤ 1 / 10 then
    (DeliveryState.ARRIVED, some "We have reached your destination!")
  else if 1 / 10 < distance ∧ distance ≤ 3 then
    (DeliveryState.NEAR_TO,
      some ("We're " ++ toString (round (distance * 1000)).toNat
        ++ " m away from your destination."))
  else if 3 < distance ∧ currentState ≠ DeliveryState.STARTED then
    (DeliveryState.STARTED, some "We're delivering...")
  else
    (DeliveryState.STARTED, none)

/-! ## `estimateArrivalTime`, the clock arithmetic (lines 101-104) -/

/-- Milliseconds from the epoch to `2024-01-01T00:00:00` UTC. -/
def epoch2024 : ℤ := 1704067200000

/-- The time value of `new Date("2024-01-01T" + departureTime)`: a date-time
string without an offset is local time. `tz` is the offset of local time from
UTC in milliseconds, taken constant over the trip. -/
def parseDeparture (tz : ℤ) (departureTime : TimeOfDay) : ℤ :=
  epoch2024 + ((departureTime.hh : ℕ) * 60 + (departureTime.mm : ℕ) : ℕ) * 60000 - tz

/-- The time value of `new Date(x)` for a finite number `x` (TimeClip): beyond
`8.64e15` in absolute value the date is invalid (`none`), otherwise `x` is
truncated toward zero. -/
def newDate [FloorRing α] (x : α) : Option ℤ :=
  if 8640000000000000 < |x| then none
  else if 0 ≤ x then some ⌊x⌋ else some ⌈x⌉

/-- Two decimal digits. -/
def pad2 (n : ℕ) : String :=
  String.mk [Nat.digitChar (n / 10), Nat.digitChar (n % 10)]

/-- The expression `date.toTimeString().slice(0, 5)`: hour and minute of the
local time, or the first five characters of `Invalid Date`. -/
def toTimeStringSlice (tz : ℤ) (date : Option ℤ) : String :=
  match date with
  | none => "Inval"
  | some t =>
    let localTime := t + tz
    pad2 ((localTime / 3600000) % 24).toNat ++ ":" ++ pad2 ((localTime / 60000) % 60).toNat

/-- Lines 101-104 of `estimateArrivalTime` for a given `travelTimeHours`. -/
def arrivalTimeAfter [FloorRing α] (tz : ℤ) (travelTimeHours : α) (departureTime : TimeOfDay) :
    String :=
  let departure := parseDeparture tz departureTime
  let arrival := newDate ((departure : α) + travelTimeHours * 60 * 60 * 1000)
  toTimeStringSlice tz arrival

end Generic

/-! ## `calculateDistance` (lines 83-94) -/

/-- The library function `Math.atan2(y, x)` on real arguments. -/
noncomputable def atan2 (y x : ℝ) : ℝ :=
  if 0 < x then Real.arctan (y / x)
  else if x < 0 then
    (if 0 ≤ y then Real.arctan (y / x) + Real.pi else Real.arctan (y / x) - Real.pi)
  else if 0 < y then Real.pi / 2
  else if y < 0 then -(Real.pi / 2)
  else 0

/-- The function `calculateDistance(lat1, lon1, lat2, lon2)` over the reals.
`Math.sqrt` is `Real.sqrt`: both radicands lie in `[0, 1]` for all real
arguments (`calculateDistance_radicand_range`), where the two agree. -/
noncomputable def calculateDistance (lat1 lon1 lat2 lon2 : ℝ) : ℝ :=
  let R : ℝ := 6371
  let dLat := (lat2 - lat1) * Real.pi / 180
  let dLon := (lon2 - lon1) * Real.pi / 180
  let a :=
    Real.sin (dLat / 2) * Real.sin (dLat / 2) +
    Real.cos (lat1 * Real.pi / 180) * Real.cos (lat2 * Real.pi / 180) *
    Real.sin (dLon / 2) * Real.sin (dLon / 2)
  let c := 2 * atan2 (Real.sqrt a) (Real.sqrt (1 - a))
  let distance := R * c
  distance

/-- The call `calculateDistance(p[0], p[1], endPosition.lat, endPosition.lng)`
for a waypoint `p` whose coordinates may be `NaN`: a `NaN` argument makes the
result `NaN`. -/
noncomputable def calculateDistanceFrom (p : Waypoint ℝ) (endPosition : LatLng ℝ) : Option ℝ :=
  match p.1, p.2 with
  | some lat, some lng => some (calculateDistance lat lng endPosition.lat endPosition.lng)
  | _, _ => none

/-! ## `estimateArrivalTime` (lines 96-105) -/

/-- The function `estimateArrivalTime`; `tz` is the local offset from UTC in
milliseconds. -/
noncomputable def estimateArrivalTime (tz : ℤ) (startLat startLng endLat endLng : ℝ)
    (departureTime : TimeOfDay) : String :=
  let distance := calculateDistance startLat startLng endLat endLng
  let averageSpeed : ℝ := 10
  let travelTimeHours := distance / averageSpeed
  arrivalTimeAfter tz travelTimeHours departureTime

/-! ## Component state, `simulateMovement` and its interval callback -/

/-- The payload of an `update_location` message (lines 160-164). -/
structure LocationEvent where
  latitude : Option ℝ
  longitude : Option ℝ

/-- A live `setInterval` timer of `simulateMovement` with the variables its
callback closes over: `newPath`, `end`, the counter `i`, and the value of
`deliveryState` seen by the `updateDeliveryState` of the render in which the
run was started. -/
structure Interval where
  newPath : List (Waypoint ℝ)
  endPos : LatLng ℝ
  deliveryState : DeliveryState
  i : ℕ

/-- The React state of `App` that the simulation reads or writes, the
messages sent on the socket so far (`emitted`) and the live timers. -/
structure AppState where
  error : Option String
  isSimulating : Bool
  path : List (Waypoint ℝ)
  endCoords : Option (LatLng ℝ)
  departureTime : Option TimeOfDay
  estimatedArrivalTime : String
  deliveryState : DeliveryState
  stateMessage : String
  emitted : List LocationEvent
  intervals : List Interval

/-- The function `updateDeliveryState(currentPosition, endPosition)` (lines
107-123) of a render whose `deliveryState` is `deliveryState`, run on the
component state `s`. -/
noncomputable def updateDeliveryState (deliveryState : DeliveryState) (s : AppState)
    (currentPosition : Waypoint ℝ) (endPosition : LatLng ℝ) : AppState :=
  let distance := calculateDistanceFrom currentPosition endPosition
  let ui := updateDeliveryStateAt deliveryState (s.deliveryState, s.stateMessage) distance
  { s with deliveryState := ui.1, stateMessage := ui.2 }

/-- One firing of the interval callback (lines 153-173) of the timer at
position `j` of the live timers; a cleared timer does not fire. The
`update_location` message is appended to `emitted`; `updateDeliveryState` is
the one of the render the run was started in, hence reads the `deliveryState`
stored with the timer. -/
noncomputable def intervalCallback (j : ℕ) (s : AppState) : AppState :=
  match s.intervals[j]? with
  | none => s
  | some iv =>
    if h : iv.newPath.length ≤ iv.i then
      { s with intervals := s.intervals.eraseIdx j, isSimulating := false }
    else
      let p := iv.newPath[iv.i]
      let newLocation : LocationEvent := { latitude := p.1, longitude := p.2 }
      let s1 := { s with emitted := s.emitted ++ [newLocation] }
      let s2 := updateDeliveryState iv.deliveryState s1 p iv.endPos
      { s2 with intervals := s2.intervals.set j { iv with i := iv.i + 1 } }

/-- The function `simulateMovement` (lines 125-174), from the click to the
return of `setInterval`, on the state `s` of the render the handler belongs
to. `start` and `endPos` are the results of the two `geocodeAddress` calls
(`none` for `null`; a failed call has set `error` itself, which line 134 then
overwrites). The call to `mapRef.current.setView` concerns the map only and is
left out. The function has no return value and throws nothing; the only error
it reports is the `error` state. -/
noncomputable def simulateMovement (tz : ℤ) (s : AppState) (start endPos : Option (LatLng ℝ)) :
    AppState :=
  if s.isSimulating then s
  else
    let s1 := { s with isSimulating := true }
    match start, endPos, s.departureTime with
    | some start, some endPos, some departureTime =>
      let s2 := { s1 with endCoords := some endPos }
      let estimatedArrival :=
        estimateArrivalTime tz start.lat start.lng endPos.lat endPos.lng departureTime
      let s3 := { s2 with estimatedArrivalTime := estimatedArrival }
      let newPath := generatePath start.lat start.lng endPos.lat endPos.lng 100
      let s4 := { s3 with path := newPath }
      let s5 := { s4 with deliveryState := DeliveryState.STARTED,
                          stateMessage := "We're delivering..." }
      { s5 with intervals := s5.intervals ++
          [{ newPath := newPath, endPos := endPos, deliveryState := s.deliveryState, i := 0 }] }
    | _, _, _ =>
      { s1 with isSimulating := false,
                error := some "Please provide valid addresses and departure time." }

/-- The state after `k` firings of the timer at position `0`. -/
noncomputable def ticks (k : ℕ) (s : AppState) : AppState :=
  match k with
  | 0 => s
  | k + 1 => intervalCallback 0 (ticks k s)

/-- The component state right after `setInterval` returned (line 153) for a
run over `newPath` towards `endPos`, started from a render whose
`deliveryState` was `captured`: this run is the only live timer. -/
def launched (s : AppState) (newPath : List (Waypoint ℝ)) (endPos : LatLng ℝ)
    (captured : DeliveryState) : AppState :=
  { s with isSimulating := true,
           path := newPath,
           deliveryState := DeliveryState.STARTED,
           stateMessage := "We're delivering...",
           intervals :=
             [{ newPath := newPath, endPos := endPos, deliveryState := captured, i := 0 }] }

/-- The `update_location` payload built from a waypoint. -/
def toEvent (p : Waypoint ℝ) : LocationEvent :=
  { latitude := p.1, longitude := p.2 }

/-- The waypoint the loop body of `generatePath` computes at index `i` when
`steps` is not zero. -/
def interpolate {α : Type} [LinearOrderedField α] (startLat startLng endLat endLng : α)
    (steps : ℕ) (i : ℕ) : Waypoint α :=
  (some (startLat + (endLat - startLat) * ((i : α) / (steps : α))),
   some (startLng + (endLng - startLng) * ((i : α) / (steps : α))))

/-- The value of the variable `a` of `calculateDistance`. -/
noncomputable def haversineA (lat1 lon1 lat2 lon2 : ℝ) : ℝ :=
  Real.sin ((lat2 - lat1) * Real.pi / 180 / 2) * Real.sin ((lat2 - lat1) * Real.pi / 180 / 2) +
    Real.cos (lat1 * Real.pi / 180) * Real.cos (lat2 * Real.pi / 180) *
    Real.sin ((lon2 - lon1) * Real.pi / 180 / 2) * Real.sin ((lon2 - lon1) * Real.pi / 180 / 2)

/-- The initial React state of `App` (lines 28-39): nothing sent, no timer. -/
def initialState : AppState :=
  { error := none,
    isSimulating := false,
    path := [],
    endCoords := none,
    departureTime := none,
    estimatedArrivalTime := "",
    deliveryState := DeliveryState.null,
    stateMessage := "",
    emitted := [],
    intervals := [] }

/-- The initial state with the departure time `08:00` entered. -/
def readyState : AppState :=
  { initialState with departureTime := some { hh := 8, mm := 0 } }

/-- A state in which a run is active: `isSimulating` is set and one timer is
live, two waypoints into a three waypoint path. -/
noncomputable def busyState : AppState :=
  { readyState with
    isSimulating := true,
    deliveryState := DeliveryState.STARTED,
    stateMessage := "We're delivering...",
    path := [(some 0, some 0), (some 0, some 1), (some 0, some 2)],
    emitted := [{ latitude := some 0, longitude := some 0 },
                { latitude := some 0, longitude := some 1 }],
    intervals := [{ newPath := [(some 0, some 0), (some 0, some 1), (some 0, some 2)],
                    endPos := { lat := 0, lng := 2 },
                    deliveryState := DeliveryState.null,
                    i := 2 }] }

/-- The run started from `readyState` when both addresses geocode to the
point `(0, 0)`. -/
noncomputable def sameSpotRun : AppState :=
  simulateMovement 0 readyState (some { lat := 0, lng := 0 }) (some { lat := 0, lng := 0 })

/-! ## Lemmas on `calculateDistance` -/

theorem atan2_nonneg {y x : ℝ} (hy : 0 ≤ y) (hx : 0 ≤ x) : 0 ≤ atan2 y x := by
  unfold atan2
  have h := Real.arctan_strictMono.monotone (div_nonneg hy hx)
  rw [Real.arctan_zero] at h
  split_ifs <;> first | exact h | exact le_refl 0 | linarith [Real.pi_pos]

theorem calculateDistance_eq (lat1 lon1 lat2 lon2 : ℝ) :
    calculateDistance lat1 lon1 lat2 lon2
      = 6371 * (2 * atan2 (Real.sqrt (haversineA lat1 lon1 lat2 lon2))
          (Real.sqrt (1 - haversineA lat1 lon1 lat2 lon2))) := rfl

/-- Both radicands of `calculateDistance` lie in `[0, 1]`. -/
theorem calculateDistance_radicand_range (lat1 lon1 lat2 lon2 : ℝ) :
    0 ≤ haversineA lat1 lon1 lat2 lon2 ∧ haversineA lat1 lon1 lat2 lon2 ≤ 1 := by
  unfold haversineA
  set p := lat1 * Real.pi / 180 with hp
  set q := lat2 * Real.pi / 180 with hq
  set u := (lon2 - lon1) * Real.pi / 180 / 2 with hu
  have hd : (lat2 - lat1) * Real.pi / 180 / 2 = (q - p) / 2 := by rw [hp, hq]; ring
  rw [hd]
  have hs : Real.sin ((q - p) / 2) * Real.sin ((q - p) / 2) = (1 - Real.cos (q - p)) / 2 := by
    have h1 := Real.sin_sq ((q - p) / 2)
    have h2 := Real.cos_sq ((q - p) / 2)
    have h3 : 2 * ((q - p) / 2) = q - p := by ring
    rw [h3] at h2
    nlinarith
  have hc : Real.cos p * Real.cos q = (Real.cos (q - p) + Real.cos (q + p)) / 2 := by
    rw [Real.cos_sub, Real.cos_add]; ring
  rw [hs]
  have h1 := Real.neg_one_le_cos (q - p)
  have h2 := Real.cos_le_one (q - p)
  have h3 := Real.neg_one_le_cos (q + p)
  have h4 := Real.cos_le_one (q + p)
  have hs0 : 0 ≤ Real.sin u * Real.sin u := mul_self_nonneg _
  have hs1 : Real.sin u * Real.sin u ≤ 1 := by
    have := Real.sin_sq_le_one u
    nlinarith
  have e : Real.cos p * Real.cos q * Real.sin u * Real.sin u
      = (Real.cos (q - p) + Real.cos (q + p)) / 2 * (Real.sin u * Real.sin u) := by
    rw [← hc]; ring
  rw [e]
  constructor <;> nlinarith

theorem calculateDistance_self_eq (lat lon : ℝ) : calculateDistance lat lon lat lon = 0 := by
  unfold calculateDistance atan2
  simp

theorem calculateDistance_ge_zero (lat1 lon1 lat2 lon2 : ℝ) :
    0 ≤ calculateDistance lat1 lon1 lat2 lon2 := by
  rw [calculateDistance_eq]
  have := atan2_nonneg (Real.sqrt_nonneg (haversineA lat1 lon1 lat2 lon2))
    (Real.sqrt_nonneg (1 - haversineA lat1 lon1 lat2 lon2))
  positivity

theorem calculateDistanceFrom_self (endPos : LatLng ℝ) :
    calculateDistanceFrom (some endPos.lat, some endPos.lng) endPos = some 0 := by
  unfold calculateDistanceFrom
  simp [calculateDistance_self_eq]

/-! ## Lemmas on `generatePath` -/

section PathLemmas

variable {α : Type} [LinearOrderedField α]

theorem generatePath_loop_eq (startLat startLng endLat endLng : α) (steps : ℕ)
    (hs : steps ≠ 0) (m : ℕ) :
    ∀ (i : ℕ) (path : List (Waypoint α)), steps + 1 - i = m →
      generatePath.loop startLat startLng endLat endLng steps i path
        = path ++ (List.range' i m).map (interpolate startLat startLng endLat endLng steps) := by
  induction m with
  | zero =>
    intro i path h
    rw [generatePath.loop, if_neg (by omega)]
    simp
  | succ m ih =>
    intro i path h
    rw [generatePath.loop, if_pos (by omega)]
    simp only [if_neg hs, Option.map_some']
    rw [ih (i + 1) _ (by omega), List.range'_succ]
    simp [interpolate]

theorem generatePath_eq_map (startLat startLng endLat endLng : α) (steps : ℕ)
    (hs : steps ≠ 0) :
    generatePath startLat startLng endLat endLng steps
      = (List.range (steps + 1)).map (interpolate startLat startLng endLat endLng steps) := by
  unfold generatePath
  rw [generatePath_loop_eq startLat startLng endLat endLng steps hs (steps + 1) 0 [] (by omega)]
  simp [List.range_eq_range']

theorem interpolate_last (startLat startLng endLat endLng : α) (steps : ℕ) (hs : steps ≠ 0) :
    interpolate startLat startLng endLat endLng steps steps = (some endLat, some endLng) := by
  have hsα : (steps : α) ≠ 0 := by exact_mod_cast hs
  simp [interpolate, div_self hsα]

theorem generatePath_length_eq (startLat startLng endLat endLng : α) (steps : ℕ)
    (hs : steps ≠ 0) :
    (generatePath startLat startLng endLat endLng steps).length = steps + 1 := by
  rw [generatePath_eq_map _ _ _ _ _ hs]; simp

theorem generatePath_get_last (startLat startLng endLat endLng : α) (steps : ℕ)
    (hs : steps ≠ 0) :
    (generatePath startLat startLng endLat endLng steps)[steps]?
      = some (some endLat, some endLng) := by
  rw [generatePath_eq_map _ _ _ _ _ hs]
  simp [interpolate_last _ _ _ _ _ hs]

theorem generatePath_get_first (startLat startLng endLat endLng : α) (steps : ℕ)
    (hs : steps ≠ 0) :
    (generatePath startLat startLng endLat endLng steps)[0]?
      = some (some startLat, some startLng) := by
  rw [generatePath_eq_map _ _ _ _ _ hs]
  simp [interpolate]

theorem generatePath_zero_eq (startLat startLng endLat endLng : α) :
    generatePath startLat startLng endLat endLng 0 = [(none, none)] := by
  unfold generatePath
  rw [generatePath.loop, if_pos (le_refl 0), generatePath.loop, if_neg (by omega)]
  simp

theorem jsLe_some (d c : α) : jsLe (some d) c = decide (d ≤ c) := rfl

end PathLemmas

/-! ## Lemmas on the branch of `updateDeliveryState` -/

section TransitionLemmas

variable {α : Type} [LinearOrderedField α] [FloorRing α]

theorem toFixed0_of_nonneg {x : α} (hx : 0 ≤ x) :
    toFixed0 (some x) = toString (round x).toNat := by
  unfold toFixed0
  simp only [if_neg (not_lt.mpr hx)]
  rw [round_eq, Int.floor_toNat]

theorem updateDeliveryStateAt_some (deliveryState : DeliveryState) (ui : DeliveryState × String)
    (d : α) :
    updateDeliveryStateAt deliveryState ui (some d)
      = if d ≤ 1 / 10 then (DeliveryState.ARRIVED, "We have reached your destination!")
        else if d ≤ 3 then
          (DeliveryState.NEAR_TO,
            "We're " ++ toString (round (d * 1000)).toNat ++ " m away from your destination.")
        else if deliveryState ≠ DeliveryState.STARTED then
          (DeliveryState.STARTED, "We're delivering...")
        else ui := by
  unfold updateDeliveryStateAt
  rw [jsLe_some, jsLe_some]
  by_cases h1 : d ≤ 1 / 10
  · rw [if_pos h1, if_pos (decide_eq_true h1)]
  · rw [if_neg h1, if_neg (by simpa using h1)]
    by_cases h2 : d ≤ 3
    · have hpos : (0 : α) ≤ d * 1000 := by
        have : (0 : α) < 1 / 10 := by norm_num
        have hd : 0 < d := lt_trans this (not_le.mp h1)
        positivity
      rw [if_pos h2, if_pos (decide_eq_true h2)]
      unfold jsMul
      rw [Option.map_some', toFixed0_of_nonneg hpos]
    · rw [if_neg h2, if_neg (by simpa using h2)]

theorem updateDeliveryStateAt_close (deliveryState : DeliveryState)
    (ui : DeliveryState × String) (d : α) (hd : d ≤ 1 / 10) :
    updateDeliveryStateAt deliveryState ui (some d)
      = (DeliveryState.ARRIVED, "We have reached your destination!") := by
  rw [updateDeliveryStateAt_some, if_pos hd]

end TransitionLemmas

/-! ## Lemmas on the clock arithmetic of `estimateArrivalTime` -/

section ClockLemmas

variable {α : Type} [LinearOrderedField α] [FloorRing α]

end ClockLemmas

/-! ## Lemmas on the interval callback -/

section RunLemmas

theorem intervalCallback_of_lt (s : AppState) (iv : Interval) (p : Waypoint ℝ)
    (hiv : s.intervals = [iv]) (hp : iv.newPath[iv.i]? = some p) :
    intervalCallback 0 s
      = { updateDeliveryState iv.deliveryState
            { s with emitted := s.emitted ++ [toEvent p] } p iv.endPos with
          intervals := [{ iv with i := iv.i + 1 }] } := by
  have hlt : iv.i < iv.newPath.length := by
    by_contra h
    rw [List.getElem?_eq_none (not_lt.mp h)] at hp
    exact Option.noConfusion hp
  have hget : iv.newPath[iv.i] = p := by
    rw [List.getElem?_eq_getElem hlt] at hp
    exact Option.some.inj hp
  unfold intervalCallback
  simp only [hiv, List.getElem?_cons_zero, dif_neg (not_le.mpr hlt), hget]
  simp [updateDeliveryState, toEvent, hiv]

theorem intervalCallback_of_ge (s : AppState) (iv : Interval)
    (hiv : s.intervals = [iv]) (hge : iv.newPath.length ≤ iv.i) :
    intervalCallback 0 s = { s with intervals := [], isSimulating := false } := by
  unfold intervalCallback
  simp [hiv, hge]

theorem intervalCallback_of_nil (s : AppState) (hiv : s.intervals = []) :
    intervalCallback 0 s = s := by
  unfold intervalCallback
  simp [hiv]

theorem ticks_running (s : AppState) (newPath : List (Waypoint ℝ)) (endPos : LatLng ℝ)
    (captured : DeliveryState) :
    ∀ k, k ≤ newPath.length →
      (ticks k (launched s newPath endPos captured)).intervals
          = [{ newPath := newPath, endPos := endPos, deliveryState := captured, i := k }]
      ∧ (ticks k (launched s newPath endPos captured)).emitted
          = s.emitted ++ (newPath.take k).map toEvent
      ∧ (ticks k (launched s newPath endPos captured)).isSimulating = true := by
  intro k
  induction k with
  | zero => intro _; simp [ticks, launched]
  | succ k ih =>
    intro hk
    obtain ⟨h1, h2, h3⟩ := ih (by omega)
    have hlt : k < newPath.length := by omega
    have e := intervalCallback_of_lt _ (Interval.mk newPath endPos captured k) newPath[k] h1
      (List.getElem?_eq_getElem hlt)
    refine ⟨?_, ?_, ?_⟩
    · simp only [ticks]; rw [e]
    · simp only [ticks]; rw [e]
      have ht : (newPath.take (k + 1)).map toEvent
          = (newPath.take k).map toEvent ++ [toEvent newPath[k]] := by
        rw [List.take_succ, List.map_append, List.getElem?_eq_getElem hlt]
        rfl
      simp only [updateDeliveryState, h2, ht, List.append_assoc]
    · simp only [ticks]; rw [e]
      simp only [updateDeliveryState, h3]

theorem ticks_succ_ui (s : AppState) (newPath : List (Waypoint ℝ)) (endPos : LatLng ℝ)
    (captured : DeliveryState) (k : ℕ) (p : Waypoint ℝ) (hp : newPath[k]? = some p) :
    ((ticks (k + 1) (launched s newPath endPos captured)).deliveryState,
      (ticks (k + 1) (launched s newPath endPos captured)).stateMessage)
      = updateDeliveryStateAt captured
          ((ticks k (launched s newPath endPos captured)).deliveryState,
            (ticks k (launched s newPath endPos captured)).stateMessage)
          (calculateDistanceFrom p endPos) := by
  have hlt : k < newPath.length := by
    by_contra h
    rw [List.getElem?_eq_none (not_lt.mp h)] at hp
    exact Option.noConfusion hp
  obtain ⟨h1, _, _⟩ := ticks_running s newPath endPos captured k (le_of_lt hlt)
  have e := intervalCallback_of_lt _ _ p h1 (by simpa using hp)
  simp only [ticks]
  rw [e]
  simp [updateDeliveryState]

theorem ticks_done (s : AppState) (newPath : List (Waypoint ℝ)) (endPos : LatLng ℝ)
    (captured : DeliveryState) :
    ∀ m, (ticks (newPath.length + 1 + m) (launched s newPath endPos captured))
      = { ticks newPath.length (launched s newPath endPos captured) with
          intervals := [], isSimulating := false } := by
  intro m
  obtain ⟨h1, _, _⟩ := ticks_running s newPath endPos captured newPath.length (le_refl _)
  induction m with
  | zero =>
    show intervalCallback 0 _ = _
    rw [intervalCallback_of_ge _ _ h1 (le_refl _)]
  | succ m ih =>
    show intervalCallback 0 (ticks (newPath.length + 1 + m) _) = _
    rw [ih, intervalCallback_of_nil _ rfl]

end RunLemmas

theorem simulateMovement_launch (tz : ℤ) (s : AppState) (start endPos : LatLng ℝ)
    (dep : TimeOfDay) (hsim : s.isSimulating = false) (hdep : s.departureTime = some dep)
    (hiv : s.intervals = []) :
    simulateMovement tz s (some start) (some endPos)
      = launched
          { s with
            endCoords := some endPos,
            estimatedArrivalTime :=
              estimateArrivalTime tz start.lat start.lng endPos.lat endPos.lng dep }
          (generatePath start.lat start.lng endPos.lat endPos.lng 100) endPos
          s.deliveryState := by
  unfold simulateMovement launched
  simp [hsim, hdep, hiv]

theorem ticks_emitted (s : AppState) (newPath : List (Waypoint ℝ)) (endPos : LatLng ℝ)
    (captured : DeliveryState) (k : ℕ) :
    (ticks k (launched s newPath endPos captured)).emitted
      = s.emitted ++ (newPath.take k).map toEvent := by
  by_cases hk : k ≤ newPath.length
  · exact (ticks_running s newPath endPos captured k hk).2.1
  · obtain ⟨m, rfl⟩ : ∃ m, k = newPath.length + 1 + m := ⟨k - newPath.length - 1, by omega⟩
    rw [ticks_done]
    show (ticks newPath.length (launched s newPath endPos captured)).emitted = _
    rw [(ticks_running s newPath endPos captured newPath.length (le_refl _)).2.1,
      List.take_of_length_le (le_refl _), List.take_of_length_le (by omega)]

/-! ## The claims -/

/-- Claim C1: for every current state, message and distance `d`, the branch of
`updateDeliveryState` yields the state and the message of the design document's
table (`specTransition`), keeping the old message where the table gives none;
from STARTED, `0.1` gives ARRIVED, `0.1000001` gives NEAR, `3.0` gives NEAR and
`3.0000001` leaves state and message as they are. -/
theorem updateDeliveryState_agrees_with_table {α : Type} [LinearOrderedField α] [FloorRing α]
    (currentState : DeliveryState) (message : String) (d : α) :
    updateDeliveryStateAt currentState (currentState, message) (some d)
      = ((specTransition currentState d).1, ((specTransition currentState d).2).getD message)
    ∧ updateDeliveryStateAt DeliveryState.STARTED (DeliveryState.STARTED, message)
        (some (1 / 10 : ℚ))
      = (DeliveryState.ARRIVED, "We have reached your destination!")
    ∧ updateDeliveryStateAt DeliveryState.STARTED (DeliveryState.STARTED, message)
        (some (1000001 / 10000000 : ℚ))
      = (DeliveryState.NEAR_TO, "We're 100 m away from your destination.")
    ∧ updateDeliveryStateAt DeliveryState.STARTED (DeliveryState.STARTED, message)
        (some (3 : ℚ))
      = (DeliveryState.NEAR_TO, "We're 3000 m away from your destination.")
    ∧ updateDeliveryStateAt DeliveryState.STARTED (DeliveryState.STARTED, message)
        (some (30000001 / 10000000 : ℚ))
      = (DeliveryState.STARTED, message) := by
  refine ⟨?_, ?_, ?_, ?_, ?_⟩
  · rw [updateDeliveryStateAt_some]
    unfold specTransition
    by_cases h1 : d ≤ 1 / 10
    · rw [if_pos h1, if_pos h1]; rfl
    · rw [if_neg h1, if_neg h1]
      by_cases h2 : d ≤ 3
      · rw [if_pos h2, if_pos ⟨not_le.mp h1, h2⟩]; rfl
      · rw [if_neg h2, if_neg (show ¬ (1 / 10 < d ∧ d ≤ 3) from fun h => h2 h.2)]
        by_cases h3 : currentState = DeliveryState.STARTED
        · rw [if_neg (not_not.mpr h3),
            if_neg (show ¬ (3 < d ∧ currentState ≠ DeliveryState.STARTED) from fun h => h.2 h3),
            h3]; rfl
        · rw [if_pos h3, if_pos ⟨not_le.mp h2, h3⟩]; rfl
  · rw [updateDeliveryStateAt_some, if_pos (le_refl _)]
  · have e : round ((1000001 / 10000000 : ℚ) * 1000) = 100 := by
      rw [round_eq]; norm_num [Int.floor_eq_iff]
    rw [updateDeliveryStateAt_some, if_neg (by norm_num), if_pos (by norm_num), e]
    rfl
  · have e : round ((3 : ℚ) * 1000) = 3000 := by
      rw [round_eq]; norm_num [Int.floor_eq_iff]
    rw [updateDeliveryStateAt_some, if_neg (by norm_num), if_pos (by norm_num), e]
    rfl
  · rw [updateDeliveryStateAt_some, if_neg (by norm_num), if_neg (by norm_num),
      if_neg (by simp)]

/-- Claim C2: for `steps >= 1`, `generatePath` returns exactly the `steps + 1`
waypoints whose `i`-th element is the linear interpolation at `i / steps`, in
order; its first waypoint is the start and its last one the end. -/
theorem generatePath_is_interpolation {α : Type} [LinearOrderedField α]
    (startLat startLng endLat endLng : α) (steps : ℕ) (hsteps : 1 ≤ steps) :
    generatePath startLat startLng endLat endLng steps
        = (List.range (steps + 1)).map (fun (i : ℕ) =>
            ((some (startLat + (endLat - startLat) * ((i : α) / (steps : α))),
              some (startLng + (endLng - startLng) * ((i : α) / (steps : α)))) : Waypoint α))
      ∧ (generatePath startLat startLng endLat endLng steps).length = steps + 1
      ∧ (generatePath startLat startLng endLat endLng steps)[0]?
          = some (some startLat, some startLng)
      ∧ (generatePath startLat startLng endLat endLng steps)[steps]?
          = some (some endLat, some endLng)
      ∧ (generatePath startLat startLng endLat endLng steps).getLast?
          = some (some endLat, some endLng) := by
  have hs : steps ≠ 0 := by omega
  refine ⟨generatePath_eq_map _ _ _ _ _ hs, generatePath_length_eq _ _ _ _ _ hs,
    generatePath_get_first _ _ _ _ _ hs, generatePath_get_last _ _ _ _ _ hs, ?_⟩
  rw [generatePath_eq_map _ _ _ _ _ hs, List.range_succ]
  simp [interpolate_last _ _ _ _ _ hs]

/-- Witness for C2 at start `(0, 0)`, end `(0, 1)` and two steps. -/
theorem generatePath_is_interpolation_witness :
    1 ≤ 2 ∧
    (generatePath (0 : ℚ) 0 0 1 2
        = (List.range (2 + 1)).map (fun (i : ℕ) =>
            ((some ((0 : ℚ) + (0 - 0) * ((i : ℚ) / ((2 : ℕ) : ℚ))),
              some ((0 : ℚ) + (1 - 0) * ((i : ℚ) / ((2 : ℕ) : ℚ)))) : Waypoint ℚ))
      ∧ (generatePath (0 : ℚ) 0 0 1 2).length = 2 + 1
      ∧ (generatePath (0 : ℚ) 0 0 1 2)[0]? = some (some 0, some 0)
      ∧ (generatePath (0 : ℚ) 0 0 1 2)[2]? = some (some 0, some 1)
      ∧ (generatePath (0 : ℚ) 0 0 1 2).getLast? = some (some 0, some 1)) :=
  ⟨by decide, generatePath_is_interpolation (0 : ℚ) 0 0 1 2 (by decide)⟩

/-- Claim C3: after `k` firings of the timer of a run over `newPath`, the
messages sent are exactly the first `k` waypoints of the path in order (all of
them once `k` reaches the length); the timer is live with counter `k` up to
`k = length`, and from the next firing on it is cleared and `isSimulating` is
false, with nothing more sent. The run that `simulateMovement` starts is such a
run over `generatePath(start, end, 100)`. -/
theorem simulateMovement_publishes_path_in_order (s : AppState)
    (newPath : List (Waypoint ℝ)) (endPos : LatLng ℝ) (captured : DeliveryState) (k : ℕ)
    (tz : ℤ) (start : LatLng ℝ) (dep : TimeOfDay) :
    (ticks k (launched s newPath endPos captured)).emitted
        = s.emitted ++ (newPath.take k).map toEvent
      ∧ ((ticks k (launched s newPath endPos captured)).emitted.length
          = s.emitted.length + min k newPath.length)
      ∧ (ticks k (launched s newPath endPos captured)).intervals
        = (if k ≤ newPath.length then
            [{ newPath := newPath, endPos := endPos, deliveryState := captured, i := k }]
           else [])
      ∧ (ticks k (launched s newPath endPos captured)).isSimulating
        = decide (k ≤ newPath.length)
      ∧ simulateMovement tz
          { s with isSimulating := false, departureTime := some dep, intervals := [] }
          (some start) (some endPos)
        = launched
            { s with
              isSimulating := false, departureTime := some dep, intervals := [],
              endCoords := some endPos,
              estimatedArrivalTime :=
                estimateArrivalTime tz start.lat start.lng endPos.lat endPos.lng dep }
            (generatePath start.lat start.lng endPos.lat endPos.lng 100) endPos
            s.deliveryState := by
  refine ⟨ticks_emitted s newPath endPos captured k, ?_, ?_, ?_, ?_⟩
  · rw [ticks_emitted]; simp
  · by_cases hk : k ≤ newPath.length
    · rw [if_pos hk]; exact (ticks_running s newPath endPos captured k hk).1
    · obtain ⟨m, rfl⟩ : ∃ m, k = newPath.length + 1 + m := ⟨k - newPath.length - 1, by omega⟩
      rw [if_neg hk, ticks_done]
  · by_cases hk : k ≤ newPath.length
    · rw [decide_eq_true hk]; exact (ticks_running s newPath endPos captured k hk).2.2
    · obtain ⟨m, rfl⟩ : ∃ m, k = newPath.length + 1 + m := ⟨k - newPath.length - 1, by omega⟩
      rw [decide_eq_false hk, ticks_done]
  · exact simulateMovement_launch tz _ start endPos dep rfl rfl rfl

/-- Claim C4, counterexample: with current state ARRIVED and a distance of 5 km
the branch of `updateDeliveryState` yields STARTED; and in the run from `(0, 0)`
to `(0, 0)` the first firing produces ARRIVED with one message sent, yet the
second firing sends another one and the run is still active. -/
theorem arrived_is_not_terminal :
    (updateDeliveryStateAt DeliveryState.ARRIVED
        (DeliveryState.ARRIVED, "We have reached your destination!") (some (5 : ℚ))).1
      = DeliveryState.STARTED
    ∧ (ticks 1 sameSpotRun).deliveryState = DeliveryState.ARRIVED
    ∧ (ticks 1 sameSpotRun).emitted.length = 1
    ∧ (ticks 2 sameSpotRun).emitted.length = 2
    ∧ (ticks 2 sameSpotRun).isSimulating = true := by
  have hrun : sameSpotRun
      = launched
          { readyState with
            endCoords := some { lat := 0, lng := 0 },
            estimatedArrivalTime := estimateArrivalTime 0 0 0 0 0 { hh := 8, mm := 0 } }
          (generatePath (0 : ℝ) 0 0 0 100) { lat := 0, lng := 0 } DeliveryState.null :=
    simulateMovement_launch 0 readyState { lat := 0, lng := 0 } { lat := 0, lng := 0 }
      { hh := 8, mm := 0 } rfl rfl rfl
  have hlen : (generatePath (0 : ℝ) 0 0 0 100).length = 101 :=
    generatePath_length_eq _ _ _ _ 100 (by decide)
  refine ⟨?_, ?_, ?_, ?_, ?_⟩
  · rw [updateDeliveryStateAt_some, if_neg (by norm_num), if_neg (by norm_num),
      if_pos (by decide)]
  · have h := ticks_succ_ui
      { readyState with
        endCoords := some { lat := 0, lng := 0 },
        estimatedArrivalTime := estimateArrivalTime 0 0 0 0 0 { hh := 8, mm := 0 } }
      (generatePath (0 : ℝ) 0 0 0 100) { lat := 0, lng := 0 }
      DeliveryState.null 0 (some 0, some 0)
      (generatePath_get_first (0 : ℝ) 0 0 0 100 (by decide))
    rw [calculateDistanceFrom_self { lat := (0 : ℝ), lng := 0 },
      updateDeliveryStateAt_close _ _ _ (by norm_num)] at h
    rw [hrun]
    exact congrArg Prod.fst h
  · rw [hrun, ticks_emitted, List.length_append, List.length_map, List.length_take, hlen]
    rfl
  · rw [hrun, ticks_emitted, List.length_append, List.length_map, List.length_take, hlen]
    rfl
  · rw [hrun]
    exact (ticks_running _ _ _ _ 2 (by rw [hlen]; decide)).2.2

/-- Claim C4, as amended: with current state ARRIVED the branch of
`updateDeliveryState` leaves ARRIVED exactly when the distance is at most
`0.1`; and every firing of the timer sends the waypoint at the counter, if
there is one, whatever the delivery state is. -/
theorem arrived_kept_only_within_reach {α : Type} [LinearOrderedField α] [FloorRing α]
    (message : String) (d : α) (s : AppState) (newPath : List (Waypoint ℝ))
    (endPos : LatLng ℝ) (captured : DeliveryState) (k : ℕ) :
    ((updateDeliveryStateAt DeliveryState.ARRIVED (DeliveryState.ARRIVED, message) (some d)).1
        = DeliveryState.ARRIVED ↔ d ≤ 1 / 10)
    ∧ (ticks (k + 1) (launched s newPath endPos captured)).emitted
        = (ticks k (launched s newPath endPos captured)).emitted
            ++ (newPath[k]?.map toEvent).toList := by
  constructor
  · rw [updateDeliveryStateAt_some]
    by_cases h1 : d ≤ 1 / 10
    · rw [if_pos h1]; exact iff_of_true rfl h1
    · rw [if_neg h1]
      refine iff_of_false ?_ h1
      by_cases h2 : d ≤ 3
      · rw [if_pos h2]; exact fun h => DeliveryState.noConfusion h
      · rw [if_neg h2, if_pos (by decide)]; exact fun h => DeliveryState.noConfusion h
  · rw [ticks_emitted, ticks_emitted, List.take_succ, List.map_append, List.append_assoc]
    cases newPath[k]? <;> rfl

/-- Claim C5: for `steps >= 1` the last waypoint of `generatePath` is the end
point, its distance to the end point is `0`, `updateDeliveryState` on it sets
ARRIVED with the arrival message, and so does the last firing of a run over
that path: after `steps + 1` firings the state is ARRIVED and the last message
sent carries the end point. -/
theorem final_waypoint_is_classified_arrived (startLat startLng endLat endLng : ℝ)
    (steps : ℕ) (hsteps : 1 ≤ steps) (s : AppState) (captured : DeliveryState) :
    (generatePath startLat startLng endLat endLng steps).getLast?
        = some (some endLat, some endLng)
    ∧ calculateDistance endLat endLng endLat endLng = 0
    ∧ (updateDeliveryState captured s (some endLat, some endLng)
          { lat := endLat, lng := endLng }).deliveryState = DeliveryState.ARRIVED
    ∧ (updateDeliveryState captured s (some endLat, some endLng)
          { lat := endLat, lng := endLng }).stateMessage = "We have reached your destination!"
    ∧ (ticks (steps + 1)
          (launched s (generatePath startLat startLng endLat endLng steps)
            { lat := endLat, lng := endLng } captured)).deliveryState = DeliveryState.ARRIVED
    ∧ (ticks (steps + 1)
          (launched s (generatePath startLat startLng endLat endLng steps)
            { lat := endLat, lng := endLng } captured)).emitted.getLast?
        = some { latitude := some endLat, longitude := some endLng } := by
  have hs : steps ≠ 0 := by omega
  have hclose : updateDeliveryStateAt captured (s.deliveryState, s.stateMessage)
      (calculateDistanceFrom (some endLat, some endLng) { lat := endLat, lng := endLng })
      = (DeliveryState.ARRIVED, "We have reached your destination!") := by
    rw [calculateDistanceFrom_self { lat := endLat, lng := endLng }]
    exact updateDeliveryStateAt_close _ _ _ (by norm_num)
  refine ⟨?_, calculateDistance_self_eq endLat endLng, ?_, ?_, ?_, ?_⟩
  · rw [generatePath_eq_map _ _ _ _ _ hs, List.range_succ]
    simp [interpolate_last _ _ _ _ _ hs]
  · show (updateDeliveryStateAt captured (s.deliveryState, s.stateMessage) _).1 = _
    rw [hclose]
  · show (updateDeliveryStateAt captured (s.deliveryState, s.stateMessage) _).2 = _
    rw [hclose]
  · have h := ticks_succ_ui s (generatePath startLat startLng endLat endLng steps)
      { lat := endLat, lng := endLng } captured steps (some endLat, some endLng)
      (generatePath_get_last _ _ _ _ _ hs)
    rw [calculateDistanceFrom_self { lat := endLat, lng := endLng },
      updateDeliveryStateAt_close _ _ _ (by norm_num)] at h
    exact congrArg Prod.fst h
  · rw [ticks_emitted, List.take_of_length_le (by rw [generatePath_length_eq _ _ _ _ _ hs]),
      generatePath_eq_map _ _ _ _ _ hs, List.range_succ]
    simp [interpolate_last _ _ _ _ _ hs, toEvent]

/-- Witness for C5 at start `(0, 0)`, end `(0, 1)`, ten steps, from the initial
state. -/
theorem final_waypoint_is_classified_arrived_witness :
    1 ≤ 10 ∧
    ((generatePath (0 : ℝ) 0 0 1 10).getLast? = some (some 0, some 1)
    ∧ calculateDistance 0 1 0 1 = 0
    ∧ (updateDeliveryState DeliveryState.null initialState (some 0, some 1)
          { lat := 0, lng := 1 }).deliveryState = DeliveryState.ARRIVED
    ∧ (updateDeliveryState DeliveryState.null initialState (some 0, some 1)
          { lat := 0, lng := 1 }).stateMessage = "We have reached your destination!"
    ∧ (ticks (10 + 1)
          (launched initialState (generatePath (0 : ℝ) 0 0 1 10)
            { lat := 0, lng := 1 } DeliveryState.null)).deliveryState = DeliveryState.ARRIVED
    ∧ (ticks (10 + 1)
          (launched initialState (generatePath (0 : ℝ) 0 0 1 10)
            { lat := 0, lng := 1 } DeliveryState.null)).emitted.getLast?
        = some { latitude := some 0, longitude := some 1 }) :=
  ⟨by decide,
    final_waypoint_is_classified_arrived 0 0 0 1 10 (by decide) initialState DeliveryState.null⟩

/-- Claim C6, counterexample: called on `busyState`, where a run is active,
`simulateMovement` reports no error at all: the `error` state is still empty
and the state is returned as it was. -/
theorem busy_call_reports_no_error :
    (simulateMovement 0 busyState (some { lat := 0, lng := 0 })
        (some { lat := 0, lng := 1 })).error = none
    ∧ simulateMovement 0 busyState (some { lat := 0, lng := 0 })
        (some { lat := 0, lng := 1 }) = busyState := by
  have h : simulateMovement 0 busyState (some { lat := 0, lng := 0 })
      (some { lat := 0, lng := 1 }) = busyState := by
    unfold simulateMovement
    rw [if_pos (by rfl)]
  exact ⟨by rw [h]; rfl, h⟩

/-- Claim C6, as amended: a call of `simulateMovement` while `isSimulating` is
true returns at once, without an error, and leaves the whole state as it was:
the live timers, the messages sent, the path, the estimated arrival time, the
delivery state and the `error` state. -/
theorem simulateMovement_ignored_while_simulating (tz : ℤ) (s : AppState)
    (start endPos : Option (LatLng ℝ)) (hbusy : s.isSimulating = true) :
    simulateMovement tz s start endPos = s := by
  unfold simulateMovement
  rw [if_pos hbusy]

/-- Witness for the amended C6 on `busyState`. -/
theorem simulateMovement_ignored_while_simulating_witness :
    busyState.isSimulating = true
    ∧ simulateMovement 3600000 busyState (some { lat := 1, lng := 1 }) none = busyState :=
  ⟨rfl, simulateMovement_ignored_while_simulating 3600000 busyState _ none rfl⟩

/-- Claim C7, counterexample: `generatePath(1, 2, 3, 4, 0)` returns a path, the
one waypoint `[NaN, NaN]`; nothing is rejected. -/
theorem generatePath_zero_steps_returns_path :
    generatePath (1 : ℚ) 2 3 4 0 = [(none, none)]
    ∧ (generatePath (1 : ℚ) 2 3 4 0).length = 1 := by
  rw [generatePath_zero_eq]
  exact ⟨rfl, rfl⟩

/-- Claim C7, as amended: for every start and end point, `generatePath` with
`steps = 0` returns normally a path of exactly one waypoint, both of whose
coordinates are `NaN`. -/
theorem generatePath_zero_steps {α : Type} [LinearOrderedField α]
    (startLat startLng endLat endLng : α) :
    generatePath startLat startLng endLat endLng 0 = [(none, none)]
    ∧ (generatePath startLat startLng endLat endLng 0).length = 1 := by
  rw [generatePath_zero_eq]
  exact ⟨rfl, rfl⟩

/-- Claim C9: `calculateDistance` is symmetric in its two points. -/
theorem calculateDistance_symmetric (lat1 lon1 lat2 lon2 : ℝ) :
    calculateDistance lat1 lon1 lat2 lon2 = calculateDistance lat2 lon2 lat1 lon1 := by
  unfold calculateDistance
  simp only
  have e1 : (lat1 - lat2) * Real.pi / 180 / 2 = -((lat2 - lat1) * Real.pi / 180 / 2) := by ring
  have e2 : (lon1 - lon2) * Real.pi / 180 / 2 = -((lon2 - lon1) * Real.pi / 180 / 2) := by ring
  rw [e1, e2, Real.sin_neg, Real.sin_neg]
  have : ∀ s t c1 c2 : ℝ, s * s + c1 * c2 * t * t = -s * -s + c2 * c1 * -t * -t := by
    intros; ring
  rw [this]

/-- Claim C10: the distance from a point to itself is `0`, and the distance
between any two points is never negative. -/
theorem calculateDistance_zero_and_nonneg (lat1 lon1 lat2 lon2 : ℝ) :
    calculateDistance lat1 lon1 lat1 lon1 = 0
    ∧ 0 ≤ calculateDistance lat1 lon1 lat2 lon2 :=
  ⟨calculateDistance_self_eq lat1 lon1, calculateDistance_ge_zero lat1 lon1 lat2 lon2⟩

end DeliveryTracker
